import Mathlib

/-!
Verification of the AI-Powered document structuring repository.

The repository has two pipelines over one biography paragraph:
  - src/document_processor.py: DocumentProcessor applies hand-written
    regular expressions to the input text and appends display rows with
    hard-coded sequence numbers.
  - src/ai_document_processor.py: AIDocumentProcessor fakes an AI call
    (simulate_ai_extraction returns a literal constant dictionary) and
    flattens the nested structure into rows with a running counter.

This file is a shallow embedding of both pipelines.  Python regular
expressions are embedded through a small backtracking matcher (leftmost
search, greedy and lazy repetition, capture groups) covering exactly the
constructs the source patterns use; character classes are modelled at
their ASCII meaning, which is exact on every input considered here.
Python floats produced by the code (board scores, CGPAs) are decimal
literals and are modelled as exact decimals; datetime.strptime with the
format "%B %d, %Y" is modelled by an explicit month-name date parser.
-/

/-- Exact decimal number: `m / 10 ^ e`.  Models the Python ints and the
decimal-literal floats this program stores in rows (repr-faithful). -/
structure Dec where
  m : Int
  e : Nat
deriving DecidableEq, Repr

/-- A JSON-serialisable cell value: string or number. -/
inductive JVal where
  | str (s : String)
  | num (d : Dec)
deriving DecidableEq, Repr

/-- One display row, as the dicts appended to `extracted_data`:
keys `#`, `Key`, `Value`, `Comments`. -/
structure Row where
  num : Nat
  key : String
  val : JVal
  comments : String
deriving DecidableEq, Repr

deriving instance DecidableEq for Except

/-! ## Regular-expression engine

Atoms and regexes cover the constructs used by the source patterns:
literals, `\w` `\d` `\s`, `.` (with and without `re.DOTALL`), greedy and
lazy star, alternation (only for the optional group `(?:,\d+)?`),
capture groups. -/

/-- One-character matcher: a literal or a Python character class
(ASCII reading of `\w`, `\d`, `\s`, `.`). -/
inductive RAtom where
  | lit (c : Char)
  | word
  | digit
  | space
  | dot
  | adot
deriving DecidableEq, Repr

/-- Whether atom `a` matches character `c`. -/
def amatch (a : RAtom) (c : Char) : Bool :=
  match a with
  | .lit d => c = d
  | .word => c.isAlphanum || c = '_'
  | .digit => c.isDigit
  | .space => c = ' ' || c = '\t' || c = '\n' || c = '\r' || c = '\x0b' || c = '\x0c'
  | .dot => !(c = '\n')
  | .adot => true

/-- Regex abstract syntax. `star r lazy` is `r*` (greedy) or `r*?` (lazy). -/
inductive Re where
  | eps
  | atom (a : RAtom)
  | seq (r1 r2 : Re)
  | alt (r1 r2 : Re)
  | grp (i : Nat) (r : Re)
  | star (r : Re) (lazy : Bool)
deriving DecidableEq, Repr

/-- Captured groups: group index paired with the captured characters,
most recent first. -/
abbrev Caps := List (Nat × List Char)

/-- Backtracking matcher in continuation-passing style, fuel-bounded so it
is structurally recursive.  Preference order mirrors Python `re`:
sequences try the left part first, `alt` prefers its left branch (the
greedy `?`), a greedy star consumes first and a lazy star consumes last,
so the first success returned is the match Python reports.  A star stops
iterating when its body consumed nothing, like Python on an empty
repetition step. -/
def matR : Nat → Re → List Char → Caps → (List Char → Caps → Option (List Char × Caps)) →
    Option (List Char × Caps)
  | 0, _, _, _, _ => none
  | fuel + 1, r, s, caps, k =>
    match r with
    | .eps => k s caps
    | .atom a =>
      match s with
      | [] => none
      | c :: rest => if amatch a c then k rest caps else none
    | .seq r1 r2 => matR fuel r1 s caps (fun s2 caps2 => matR fuel r2 s2 caps2 k)
    | .alt r1 r2 =>
      match matR fuel r1 s caps k with
      | some res => some res
      | none => matR fuel r2 s caps k
    | .grp i r1 =>
      matR fuel r1 s caps (fun s2 caps2 => k s2 ((i, s.take (s.length - s2.length)) :: caps2))
    | .star r1 lz =>
      if lz then
        match k s caps with
        | some res => some res
        | none =>
          matR fuel r1 s caps (fun s2 caps2 =>
            if s2.length < s.length then matR fuel (.star r1 true) s2 caps2 k else none)
      else
        match matR fuel r1 s caps (fun s2 caps2 =>
            if s2.length < s.length then matR fuel (.star r1 false) s2 caps2 k else k s2 caps2) with
        | some res => some res
        | none => k s caps

/-- Fuel that is always sufficient for the source patterns: pattern depth
plus iteration count stays far below it. -/
def reFuel (s : List Char) : Nat := 20 * s.length + 600

/-- Try to match `r` at the start of `s`; on success return the matched
span (group 0) and the captures. -/
def matchHere (r : Re) (s : List Char) : Option (List Char × Caps) :=
  match matR (reFuel s) r s [] (fun s2 caps => some (s2, caps)) with
  | some (s2, caps) => some (s.take (s.length - s2.length), caps)
  | none => none

/-- `re.search` without anchoring: try each start position left to right. -/
def reSearch (r : Re) : List Char → Option (List Char × Caps)
  | [] => matchHere r []
  | c :: rest =>
    match matchHere r (c :: rest) with
    | some res => some res
    | none => reSearch r rest

/-- `re.search` for a pattern anchored with `^` (no `re.MULTILINE`):
only position 0 is tried. -/
def reSearchAnchored (r : Re) (s : List Char) : Option (List Char × Caps) :=
  matchHere r s

/-- `match.group(i)`: the captured text of group `i`, as a string. -/
def mgrp (caps : Caps) (i : Nat) : String :=
  match caps.find? (fun p => p.1 = i) with
  | some p => String.mk p.2
  | none => ""

/-! ### Pattern-building helpers -/

/-- Sequence a list of regexes. -/
def rcat (rs : List Re) : Re := rs.foldr .seq .eps

/-- Literal character. -/
def rchar (c : Char) : Re := .atom (.lit c)

/-- Literal string. -/
def rlits (s : String) : Re := rcat (s.data.map rchar)

/-- `X+` (greedy), as `X` then greedy `X*`. -/
def rplus (r : Re) : Re := .seq r (.star r false)

/-- `\w+` -/
def wplus : Re := rplus (.atom .word)

/-- `\s+` -/
def splus : Re := rplus (.atom .space)

/-- `\d+` -/
def dplus : Re := rplus (.atom .digit)

/-- `.*?` (lazy, no DOTALL) -/
def dotStarL : Re := .star (.atom .dot) true

/-- `.*` (greedy, no DOTALL) -/
def dotStarG : Re := .star (.atom .dot) false

/-- `.*` under `re.DOTALL` (greedy) -/
def adotStarG : Re := .star (.atom .adot) false

/-- `(?:X)?` (greedy option) -/
def ropt (r : Re) : Re := .alt r .eps

/-- `\d{4}` -/
def dig4 : Re := rcat [.atom .digit, .atom .digit, .atom .digit, .atom .digit]

/-! ## The source patterns (src/document_processor.py) -/

/-- `(\w+\s+\d+,\s+\d+)` body: the long-date shape. -/
def dateRe : Re := rcat [wplus, splus, dplus, rchar ',', splus, dplus]

/-- `\d+(?:,\d+)?` — a salary figure. -/
def salNum : Re := rcat [dplus, ropt (rcat [rchar ',', dplus])]

/-- `\d+\.\d+` — a decimal figure. -/
def decNum : Re := rcat [dplus, rchar '.', dplus]

/-- `^(\w+)\s+(\w+)\s+was\s+born` (anchored) -/
def p_name : Re := rcat [.grp 1 wplus, splus, .grp 2 wplus, splus, rlits "was", splus, rlits "born"]

/-- `born\s+on\s+(\w+\s+\d+,\s+\d+)` -/
def p_dob : Re := rcat [rlits "born", splus, rlits "on", splus, .grp 1 dateRe]

/-- `born\s+on\s+.*?,\s+(\d+),\s+in\s+(\w+),\s+(\w+)` -/
def p_birth : Re :=
  rcat [rlits "born", splus, rlits "on", splus, dotStarL, rchar ',', splus, .grp 1 dplus,
    rchar ',', splus, rlits "in", splus, .grp 2 wplus, rchar ',', splus, .grp 3 wplus]

/-- `making\s+him\s+(\d+)\s+years\s+old` -/
def p_age : Re :=
  rcat [rlits "making", splus, rlits "him", splus, .grp 1 dplus, splus, rlits "years",
    splus, rlits "old"]

/-- `O\+\s+blood\s+group` -/
def p_blood : Re := rcat [rlits "O+", splus, rlits "blood", splus, rlits "group"]

/-- `As\s+an\s+(\w+)\s+national` -/
def p_nat : Re := rcat [rlits "As", splus, rlits "an", splus, .grp 1 wplus, splus, rlits "national"]

/-- first-job pattern of extract_professional_info -/
def p_first_job : Re :=
  rcat [rlits "professional", splus, rlits "journey", splus, rlits "began", splus, rlits "on",
    splus, .grp 1 dateRe, dotStarL, rlits "as", splus, rlits "a", splus, .grp 2 dotStarL,
    splus, rlits "with", splus, rlits "an", splus, rlits "annual", splus, rlits "salary",
    splus, rlits "of", splus, .grp 3 salNum, splus, .grp 4 wplus]

/-- current-job pattern of extract_professional_info -/
def p_current_job : Re :=
  rcat [rlits "current", splus, rlits "role", splus, rlits "at", splus, .grp 1 dotStarL,
    splus, rlits "beginning", splus, rlits "on", splus, .grp 2 dateRe, dotStarL, rlits "as",
    splus, rlits "a", splus, .grp 3 dotStarL, splus, rlits "earning", splus, .grp 4 salNum,
    splus, .grp 5 wplus]

/-- `worked\s+at\s+(.*?)\s+from\s+(\w+\s+\d+,\s+\d+).*?(\d{4})` -/
def p_prev_job : Re :=
  rcat [rlits "worked", splus, rlits "at", splus, .grp 1 dotStarL, splus, rlits "from",
    splus, .grp 2 dateRe, dotStarL, .grp 3 dig4]

/-- `at\s+LakeCorp\s+Solutions.*starting\s+as\s+a\s+(.*?)\s+and` -/
def p_prev_desig : Re :=
  rcat [rlits "at", splus, rlits "LakeCorp", splus, rlits "Solutions", dotStarG,
    rlits "starting", splus, rlits "as", splus, rlits "a", splus, .grp 1 dotStarL,
    splus, rlits "and"]

/-- `high\s+school\s+education\s+at\s+(.*?),\s+where\s+he\s+completed` -/
def p_hs : Re :=
  rcat [rlits "high", splus, rlits "school", splus, rlits "education", splus, rlits "at",
    splus, .grp 1 dotStarL, rchar ',', splus, rlits "where", splus, rlits "he", splus,
    rlits "completed"]

/-- `12th\s+standard\s+in\s+(\d+)` -/
def p_y12 : Re := rcat [rlits "12th", splus, rlits "standard", splus, rlits "in", splus, .grp 1 dplus]

/-- `outstanding\s+(\d+\.\d+)%\s+overall\s+score` -/
def p_score12 : Re :=
  rcat [rlits "outstanding", splus, .grp 1 decNum, rchar '%', splus, rlits "overall",
    splus, rlits "score"]

/-- `B\.Tech\s+in\s+(\w+\s+\w+)` -/
def p_ug : Re := rcat [rlits "B.Tech", splus, rlits "in", splus, .grp 1 (rcat [wplus, splus, wplus])]

/-- `prestigious\s+(\w+\s+\w+),\s+graduating` -/
def p_ug_college : Re :=
  rcat [rlits "prestigious", splus, .grp 1 (rcat [wplus, splus, wplus]), rchar ',', splus,
    rlits "graduating"]

/-- `graduating\s+with\s+honors\s+in\s+(\d+)` -/
def p_ug_year : Re :=
  rcat [rlits "graduating", splus, rlits "with", splus, rlits "honors", splus, rlits "in",
    splus, .grp 1 dplus]

/-- `CGPA\s+of\s+(\d+\.\d+)\s+on\s+a\s+10-point\s+scale` -/
def p_ug_cgpa : Re :=
  rcat [rlits "CGPA", splus, rlits "of", splus, .grp 1 decNum, splus, rlits "on", splus,
    rlits "a", splus, rlits "10-point", splus, rlits "scale"]

/-- `M\.Tech\s+in\s+(\w+\s+\w+)` -/
def p_grad : Re := rcat [rlits "M.Tech", splus, rlits "in", splus, .grp 1 (rcat [wplus, splus, wplus])]

/-- `IIT\s+Bombay,\s+where\s+he\s+earned` -/
def p_grad_college : Re :=
  rcat [rlits "IIT", splus, rlits "Bombay,", splus, rlits "where", splus, rlits "he",
    splus, rlits "earned"]

/-- `achieving\s+an\s+exceptional\s+CGPA\s+of\s+(\d+\.\d+)` -/
def p_grad_cgpa : Re :=
  rcat [rlits "achieving", splus, rlits "an", splus, rlits "exceptional", splus,
    rlits "CGPA", splus, rlits "of", splus, .grp 1 decNum]

/-- AWS certification pattern -/
def p_aws : Re :=
  rcat [rlits "AWS", splus, rlits "Solutions", splus, rlits "Architect", splus, rlits "exam",
    splus, rlits "in", splus, .grp 1 dplus, splus, rlits "with", splus, rlits "a", splus,
    rlits "score", splus, rlits "of", splus, .grp 2 dplus]

/-- Azure certification pattern -/
def p_azure : Re :=
  rcat [rlits "Azure", splus, rlits "Data", splus, rlits "Engineer", splus,
    rlits "certification", splus, rlits "in", splus, .grp 1 dplus, splus, rlits "with",
    splus, .grp 2 dplus, splus, rlits "points"]

/-- PMP certification pattern -/
def p_pmp : Re :=
  rcat [rlits "Project", splus, rlits "Management", splus, rlits "Professional", splus,
    rlits "certification,", splus, rlits "obtained", splus, rlits "in", splus, .grp 1 dplus]

/-- SAFe certification pattern -/
def p_safe : Re :=
  rcat [rlits "SAFe", splus, rlits "Agilist", splus, rlits "certification", splus,
    rlits "earned", splus, rlits "him", splus, rlits "an", splus, rlits "outstanding",
    splus, .grp 1 dplus, rchar '%']

/-- `In\s+terms\s+of\s+technical\s+proficiency.*` with `re.DOTALL` -/
def p_tech : Re :=
  rcat [rlits "In", splus, rlits "terms", splus, rlits "of", splus, rlits "technical",
    splus, rlits "proficiency", adotStarG]

/-! ## Dates: datetime.strptime(s, "%B %d, %Y") and strftime "%Y-%m-%d 00:00:00" -/

/-- Python `\s` membership (ASCII reading). -/
def pySpace (c : Char) : Bool := amatch .space c

/-- Full English month names, as `%B` accepts them (case-insensitively). -/
def monthNames : List (String × Nat) :=
  [("january", 1), ("february", 2), ("march", 3), ("april", 4), ("may", 5), ("june", 6),
   ("july", 7), ("august", 8), ("september", 9), ("october", 10), ("november", 11),
   ("december", 12)]

/-- Gregorian leap year. -/
def isLeap (y : Nat) : Bool := (y % 4 = 0 && !(y % 100 = 0)) || y % 400 = 0

/-- Days in a month. -/
def daysInMonth (mo y : Nat) : Nat :=
  if mo = 2 then (if isLeap y then 29 else 28)
  else if mo = 4 || mo = 6 || mo = 9 || mo = 11 then 30
  else 31

/-- Value of a digit string. -/
def digitsVal (ds : List Char) : Nat := ds.foldl (fun a c => 10 * a + (c.toNat - 48)) 0

/-- `datetime.strptime(s, "%B %d, %Y")`: month name (case-insensitive), day of
1 or 2 digits and at least 1, a comma, a 4-digit year, whole string consumed,
and the day valid for the month. -/
def parseLongDate (s : String) : Option (Nat × Nat × Nat) :=
  let cs := s.data
  let mw := cs.takeWhile (fun c => c.isAlpha)
  let r1 := cs.dropWhile (fun c => c.isAlpha)
  match monthNames.lookup (String.mk (mw.map Char.toLower)) with
  | none => none
  | some mo =>
    let r2 := r1.dropWhile pySpace
    if (r1.takeWhile pySpace).length = 0 then none else
    let dd := r2.takeWhile Char.isDigit
    let r3 := r2.dropWhile Char.isDigit
    if dd.length = 0 || 2 < dd.length then none else
    let d := digitsVal dd
    if d = 0 then none else
    match r3 with
    | ',' :: r4 =>
      let r5 := r4.dropWhile pySpace
      if (r4.takeWhile pySpace).length = 0 then none else
      let yy := r5.takeWhile Char.isDigit
      let r6 := r5.dropWhile Char.isDigit
      if yy.length = 4 && r6.isEmpty then
        (if d ≤ daysInMonth mo (digitsVal yy) then some (digitsVal yy, mo, d) else none)
      else none
    | _ => none

/-- Zero-padded two digits. -/
def pad2 (n : Nat) : String := if n < 10 then "0" ++ toString n else toString n

/-- `strftime("%Y-%m-%d 00:00:00")` on the parsed date. -/
def fmtIso (ymd : Nat × Nat × Nat) : String :=
  toString ymd.1 ++ "-" ++ pad2 ymd.2.1 ++ "-" ++ pad2 ymd.2.2 ++ " 00:00:00"

/-- The ISO string of a long date, when it parses. -/
def parseLongDateS (s : String) : Option String := (parseLongDate s).map fmtIso

/-- Python `s.replace(",", "")`. -/
def removeCommas (s : String) : String := String.mk (s.data.filter (fun c => !(c = ',')))

/-- Python `s.strip()` (ASCII whitespace reading). -/
def pyStrip (s : String) : String :=
  String.mk (((s.data.dropWhile pySpace).reverse.dropWhile pySpace).reverse)

/-- Python `float` of a `\d+\.\d+` or `\d+` string, as an exact decimal. -/
def floatOfStr (s : String) : Dec :=
  let i := s.data.takeWhile Char.isDigit
  match s.data.dropWhile Char.isDigit with
  | '.' :: f => ⟨(digitsVal (i ++ f) : Int), f.length⟩
  | _ => ⟨(digitsVal i : Int), 0⟩

/-! ## DocumentProcessor.extract_* (src/document_processor.py)

Each function returns the rows the Python method appends to
`self.extracted_data`, in order.  The `#` literals are the hard-coded
constants of the source.  The try/except wrappers of the source catch
nothing in this model: none of the modelled operations raises. -/

/-- Comment attached to the birth city and state rows. -/
def birthComment : String :=
  "Born and raised in the Pink City of India, his birthplace provides valuable regional profiling context"

/-- Comment attached to the age row. -/
def ageComment : String :=
  "As on year 2024. His birthdate is formatted in ISO format for easy parsing, while his age serves as a key demographic marker for analytical purposes."

/-- Comment attached to the nationality row. -/
def nationalityComment : String :=
  "Citizenship status is important for understanding his work authorization and visa requirements across different employment opportunities."

/-- Comment attached to the current-salary row. -/
def currentSalaryComment : String :=
  "This salary progression from his starting compensation to his current peak salary of 2,800,000 INR represents a substantial eight-fold increase over his twelve-year career span."

/-- Name rows (`#` 1 and 2). -/
def nameRows (s : List Char) : List Row :=
  match reSearchAnchored p_name s with
  | none => []
  | some (_, caps) =>
    [⟨1, "First Name", .str (mgrp caps 1), ""⟩, ⟨2, "Last Name", .str (mgrp caps 2), ""⟩]

/-- The date-of-birth match of the text. -/
def dobMatch (s : List Char) : Option (List Char × Caps) := reSearch p_dob s

/-- The matched date-of-birth string (group 1), when the pattern matched. -/
def dobStr (s : List Char) : String :=
  match dobMatch s with
  | some (_, caps) => mgrp caps 1
  | none => ""

/-- Date-of-birth row (`#` 3): ISO-formatted when strptime succeeds, else the
hard-coded fallback constant of the source. -/
def dobRows (s : List Char) : List Row :=
  match dobMatch s with
  | none => []
  | some (_, caps) =>
    [⟨3, "Date of Birth",
      .str (match parseLongDateS (mgrp caps 1) with
            | some iso => iso
            | none => "1989-03-15 00:00:00"), ""⟩]

/-- Birth city and state rows (`#` 4 and 5). -/
def birthRows (s : List Char) : List Row :=
  match reSearch p_birth s with
  | none => []
  | some (_, caps) =>
    [⟨4, "Birth City", .str (mgrp caps 2), birthComment⟩,
     ⟨5, "Birth State", .str (mgrp caps 3), birthComment⟩]

/-- Age row (`#` 6). -/
def ageRows (s : List Char) : List Row :=
  match reSearch p_age s with
  | none => []
  | some (_, caps) => [⟨6, "Age", .str (mgrp caps 1 ++ " years"), ageComment⟩]

/-- Blood-group row (`#` 7). -/
def bloodRows (s : List Char) : List Row :=
  match reSearch p_blood s with
  | none => []
  | some _ => [⟨7, "Blood Group", .str "O+", "Emergency contact purposes."⟩]

/-- Nationality row (`#` 8). -/
def natRows (s : List Char) : List Row :=
  match reSearch p_nat s with
  | none => []
  | some (_, caps) => [⟨8, "Nationality", .str (mgrp caps 1), nationalityComment⟩]

/-- DocumentProcessor.extract_personal_info. -/
def extract_personal_info (s : List Char) : List Row :=
  nameRows s ++ dobRows s ++ birthRows s ++ ageRows s ++ bloodRows s ++ natRows s

/-- First-job rows (`#` 9 to 12). -/
def firstJobRows (s : List Char) : List Row :=
  match reSearch p_first_job s with
  | none => []
  | some (_, caps) =>
    [⟨9, "Joining Date of first professional role",
      .str (match parseLongDateS (mgrp caps 1) with
            | some iso => iso
            | none => "2012-07-01 00:00:00"), ""⟩,
     ⟨10, "Designation of first professional role", .str (mgrp caps 2), ""⟩,
     ⟨11, "Salary of first professional role", .str (removeCommas (mgrp caps 3)), ""⟩,
     ⟨12, "Salary currency of first professional role", .str (mgrp caps 4), ""⟩]

/-- Current-job rows (`#` 13 to 17). -/
def currentJobRows (s : List Char) : List Row :=
  match reSearch p_current_job s with
  | none => []
  | some (_, caps) =>
    [⟨13, "Current Organization", .str (mgrp caps 1), ""⟩,
     ⟨14, "Current Joining Date",
      .str (match parseLongDateS (mgrp caps 2) with
            | some iso => iso
            | none => "2021-06-15 00:00:00"), ""⟩,
     ⟨15, "Current Designation", .str (mgrp caps 3), ""⟩,
     ⟨16, "Current Salary", .str (removeCommas (mgrp caps 4)), currentSalaryComment⟩,
     ⟨17, "Current Salary Currency", .str (mgrp caps 5), ""⟩]

/-- Previous-job rows (`#` 18 to 21); the starting-designation search is
nested inside the previous-job match, as in the source. -/
def prevJobRows (s : List Char) : List Row :=
  match reSearch p_prev_job s with
  | none => []
  | some (_, caps) =>
    [⟨18, "Previous Organization", .str (mgrp caps 1), ""⟩,
     ⟨19, "Previous Joining Date",
      .str (match parseLongDateS (mgrp caps 2) with
            | some iso => iso
            | none => "2018-02-01 00:00:00"), ""⟩,
     ⟨20, "Previous end year", .str (mgrp caps 3), ""⟩]
    ++ (match reSearch p_prev_desig s with
        | none => []
        | some (_, c2) =>
          [⟨21, "Previous Starting Designation", .str (mgrp c2 1), "Promoted in 2019"⟩])

/-- DocumentProcessor.extract_professional_info. -/
def extract_professional_info (s : List Char) : List Row :=
  firstJobRows s ++ currentJobRows s ++ prevJobRows s

/-- High-school row (`#` 22). -/
def hsRows (s : List Char) : List Row :=
  match reSearch p_hs s with
  | none => []
  | some (_, caps) => [⟨22, "High School", .str (mgrp caps 1), ""⟩]

/-- 12th-pass-out-year row (`#` 23). -/
def y12Rows (s : List Char) : List Row :=
  match reSearch p_y12 s with
  | none => []
  | some (_, caps) =>
    [⟨23, "12th standard pass out year", .str (mgrp caps 1),
      "His core subjects included Mathematics, Physics, Chemistry, and Computer Science, demonstrating his early aptitude for technical disciplines."⟩]

/-- 12th-board-score row (`#` 24): `float(...)/100`, an exact decimal here. -/
def score12Rows (s : List Char) : List Row :=
  match reSearch p_score12 s with
  | none => []
  | some (_, caps) =>
    [⟨24, "12th overall board score",
      .num ⟨(floatOfStr (mgrp caps 1)).m, (floatOfStr (mgrp caps 1)).e + 2⟩,
      "Outstanding achievement"⟩]

/-- Undergraduate-degree row (`#` 25). -/
def ugRows (s : List Char) : List Row :=
  match reSearch p_ug s with
  | none => []
  | some (_, caps) => [⟨25, "Undergraduate degree", .str ("B.Tech (" ++ mgrp caps 1 ++ ")"), ""⟩]

/-- Undergraduate-college row (`#` 26). -/
def ugCollegeRows (s : List Char) : List Row :=
  match reSearch p_ug_college s with
  | none => []
  | some (_, caps) => [⟨26, "Undergraduate college", .str (mgrp caps 1), ""⟩]

/-- Undergraduate-year row (`#` 27). -/
def ugYearRows (s : List Char) : List Row :=
  match reSearch p_ug_year s with
  | none => []
  | some (_, caps) =>
    [⟨27, "Undergraduate year", .str (mgrp caps 1),
      "Graduating with honors and ranking 15th among 120 students in his class."⟩]

/-- Undergraduate-CGPA row (`#` 28). -/
def ugCgpaRows (s : List Char) : List Row :=
  match reSearch p_ug_cgpa s with
  | none => []
  | some (_, caps) =>
    [⟨28, "Undergraduate CGPA", .num (floatOfStr (mgrp caps 1)), "On a 10-point scale"⟩]

/-- Graduation-degree row (`#` 29). -/
def gradRows (s : List Char) : List Row :=
  match reSearch p_grad s with
  | none => []
  | some (_, caps) => [⟨29, "Graduation degree", .str ("M.Tech (" ++ mgrp caps 1 ++ ")"), ""⟩]

/-- Graduation-college row (`#` 30). -/
def gradCollegeRows (s : List Char) : List Row :=
  match reSearch p_grad_college s with
  | none => []
  | some _ =>
    [⟨30, "Graduation college", .str "IIT Bombay", "Continued academic excellence at IIT Bombay"⟩]

/-- Graduation-year row (`#` 31): appended unconditionally by the source,
with the constant value "2013". -/
def gradYearRow : Row := ⟨31, "Graduation year", .str "2013", ""⟩

/-- Graduation-CGPA row (`#` 32). -/
def gradCgpaRows (s : List Char) : List Row :=
  match reSearch p_grad_cgpa s with
  | none => []
  | some (_, caps) =>
    [⟨32, "Graduation CGPA", .num (floatOfStr (mgrp caps 1)),
      "Considered exceptional and scoring 95 out of 100 for his final year thesis project."⟩]

/-- DocumentProcessor.extract_education_info. -/
def extract_education_info (s : List Char) : List Row :=
  hsRows s ++ y12Rows s ++ score12Rows s ++ ugRows s ++ ugCollegeRows s ++ ugYearRows s
    ++ ugCgpaRows s ++ gradRows s ++ gradCollegeRows s ++ [gradYearRow] ++ gradCgpaRows s

/-- AWS-certification row (`#` 33), with the interpolated comment. -/
def awsRows (s : List Char) : List Row :=
  match reSearch p_aws s with
  | none => []
  | some (_, caps) =>
    [⟨33, "Certifications 1", .str "AWS Solutions Architect",
      "Vijay's commitment to continuous learning is evident through his impressive certification scores. He passed the AWS Solutions Architect exam in "
        ++ mgrp caps 1 ++ " with a score of " ++ mgrp caps 2 ++ " out of 1000"⟩]

/-- Azure-certification row (`#` 34). -/
def azureRows (s : List Char) : List Row :=
  match reSearch p_azure s with
  | none => []
  | some (_, caps) =>
    [⟨34, "Certifications 2", .str "Azure Data Engineer",
      "Pursued in the year " ++ mgrp caps 1 ++ " with " ++ mgrp caps 2 ++ " points."⟩]

/-- PMP-certification row (`#` 35). -/
def pmpRows (s : List Char) : List Row :=
  match reSearch p_pmp s with
  | none => []
  | some (_, caps) =>
    [⟨35, "Certifications 3", .str "Project Management Professional certification",
      "Obtained in " ++ mgrp caps 1
        ++ ", was achieved with an \"Above Target\" rating from PMI, These certifications complement his practical experience and demonstrate his expertise across multiple technology platforms."⟩]

/-- SAFe-certification row (`#` 36). -/
def safeRows (s : List Char) : List Row :=
  match reSearch p_safe s with
  | none => []
  | some (_, caps) =>
    [⟨36, "Certifications 4", .str "SAFe Agilist certification",
      "Earned him an outstanding " ++ mgrp caps 1
        ++ "% score. Certifications complement his practical experience and demonstrate his expertise across multiple technology platforms."⟩]

/-- DocumentProcessor.extract_certifications. -/
def extract_certifications (s : List Char) : List Row :=
  awsRows s ++ azureRows s ++ pmpRows s ++ safeRows s

/-- DocumentProcessor.extract_technical_proficiency (`#` 37): group 0 of the
DOTALL match, stripped. -/
def extract_technical_proficiency (s : List Char) : List Row :=
  match reSearch p_tech s with
  | none => []
  | some (whole, _) => [⟨37, "Technical Proficiency", .str "", pyStrip (String.mk whole)⟩]

/-- All rows a full DocumentProcessor run appends, in order. -/
def processRows (text : String) : List Row :=
  extract_personal_info text.data ++ extract_professional_info text.data
    ++ extract_education_info text.data ++ extract_certifications text.data
    ++ extract_technical_proficiency text.data

/-- The processing log of a successful DocumentProcessor.process_all run: the
start banner, one success line per section (no per-field entries exist in the
source), and the final count line. -/
def processLog (text : String) : List String :=
  ["🚀 Starting document processing...",
   "✅ Personal information extracted successfully",
   "✅ Professional information extracted successfully",
   "✅ Education information extracted successfully",
   "✅ Certifications extracted successfully",
   "✅ Technical proficiency extracted successfully",
   "✅ Processing complete! Extracted " ++ toString (processRows text).length ++ " records."]

/-- DocumentProcessor.process_all: raises ValueError on missing or empty text
(`if not self.text_content`), else runs every section and returns the rows and
the log. -/
def process_all (text : String) : Except String (List Row × List String) :=
  if text = "" then .error "No text content provided. Please load content first."
  else .ok (processRows text, processLog text)

/-- Outcome of the demo_usage shell: which sinks were written.  Excel and
JSON writes happen only after process_all returned; save_to_excel and
save_to_json raise on an empty row list before writing. -/
structure RunOutcome where
  rows : List Row
  excelWritten : Bool
  jsonWritten : Bool
  errored : Bool
deriving DecidableEq, Repr

/-- The demo_usage control flow: process_all, then save_to_excel, then
save_to_json; an error stops the run before any file is written. -/
def demo_usage (text : String) : RunOutcome :=
  match process_all text with
  | .error _ => ⟨[], false, false, true⟩
  | .ok (rows, _) => if rows = [] then ⟨rows, false, false, true⟩ else ⟨rows, true, true, false⟩

/-! ## AIDocumentProcessor (src/ai_document_processor.py) -/

/-- One certification entry of the simulated extraction: the flattener reads
only its `name`; the remaining keys (year, score, rating) are carried as
inert extra pairs. -/
structure Cert where
  name : String
  extra : List (String × String) := []
deriving DecidableEq, Repr

/-- The nested structure simulate_ai_extraction returns: ordered key/value
maps per category, mirroring the Python dict shape. -/
structure AIData where
  personal_info : List (String × String)
  first_role : List (String × String)
  current_role : List (String × String)
  previous_role : List (String × String)
  high_school : String
  passout12 : String
  board12 : String
  undergraduate : List (String × String)
  graduation : List (String × String)
  certifications : List Cert
  technical_proficiency : String
deriving DecidableEq, Repr

/-- The literal constant dictionary of simulate_ai_extraction. -/
def aiConstant : AIData where
  personal_info :=
    [("first_name", "Vijay"), ("last_name", "Kumar"),
     ("date_of_birth", "1989-03-15 00:00:00"), ("birth_city", "Jaipur"),
     ("birth_state", "Rajasthan"), ("age", "35 years"), ("blood_group", "O+"),
     ("nationality", "Indian")]
  first_role :=
    [("joining_date", "2012-07-01 00:00:00"), ("designation", "Junior Developer"),
     ("salary", "350000"), ("currency", "INR")]
  current_role :=
    [("organization", "Resse Analytics"), ("joining_date", "2021-06-15 00:00:00"),
     ("designation", "Senior Data Engineer"), ("salary", "2800000"), ("currency", "INR")]
  previous_role :=
    [("organization", "LakeCorp Solutions"), ("joining_date", "2018-02-01 00:00:00"),
     ("end_year", "2021"), ("starting_designation", "Data Analyst")]
  high_school := "St. Xavier's School, Jaipur"
  passout12 := "2007"
  board12 := "0.925"
  undergraduate :=
    [("degree", "B.Tech (Computer Science)"), ("college", "IIT Delhi"), ("year", "2011"),
     ("cgpa", "8.7")]
  graduation :=
    [("degree", "M.Tech (Data Science)"), ("college", "IIT Bombay"), ("year", "2013"),
     ("cgpa", "9.2")]
  certifications :=
    [⟨"AWS Solutions Architect", [("year", "2019"), ("score", "920 out of 1000")]⟩,
     ⟨"Azure Data Engineer", [("year", "2020"), ("score", "875 points")]⟩,
     ⟨"Project Management Professional certification", [("year", "2021"), ("rating", "Above Target")]⟩,
     ⟨"SAFe Agilist certification", [("score", "98%")]⟩]
  technical_proficiency :=
    "In terms of technical proficiency, Vijay rates himself highly across various skills, with SQL expertise at a perfect 10 out of 10, reflecting his daily usage since 2012. His Python proficiency scores 9 out of 10, backed by over seven years of practical experience, while his machine learning capabilities rate 8 out of 10, representing five years of hands-on implementation. His cloud platform expertise, including AWS and Azure certifications, also rates 9 out of 10 with more than four years of experience, and his data visualization skills in Power BI and Tableau score 8 out of 10, establishing him as an expert in the field."

/-- AIDocumentProcessor.simulate_ai_extraction: ignores its argument and
returns the constant. -/
def simulate_ai_extraction (_text : String) : AIData := aiConstant

/-- Python `s.replace("_", " ")`. -/
def pyReplaceUnderscore (s : String) : String :=
  String.mk (s.data.map (fun c => if c = '_' then ' ' else c))

/-- Python `s.title()` (ASCII reading): the first letter of every run of
letters is uppercased, the rest lowercased. -/
def pyTitleGo : Bool → List Char → List Char
  | _, [] => []
  | prev, c :: rest =>
    if c.isAlpha then (if prev then c.toLower else c.toUpper) :: pyTitleGo true rest
    else c :: pyTitleGo false rest

/-- Python `s.title()` on a string. -/
def pyTitle (s : String) : String := String.mk (pyTitleGo false s.data)

/-- The generic fallback label: underscores to spaces, then title-case
(`key.replace("_", " ").title()`). -/
def titleFallback (k : String) : String := pyTitle (pyReplaceUnderscore k)

/-- key_mapping of format_key_name. -/
def key_mapping : List (String × String) :=
  [("first_name", "First Name"), ("last_name", "Last Name"),
   ("date_of_birth", "Date of Birth"), ("birth_city", "Birth City"),
   ("birth_state", "Birth State"), ("age", "Age"), ("blood_group", "Blood Group"),
   ("nationality", "Nationality")]

/-- AIDocumentProcessor.format_key_name: table lookup with the title-case
fallback. -/
def format_key_name (k : String) : String := (key_mapping.lookup k).getD (titleFallback k)

/-- mapping of format_first_role_key. -/
def first_role_mapping : List (String × String) :=
  [("joining_date", "Joining Date of first professional role"),
   ("designation", "Designation of first professional role"),
   ("salary", "Salary of first professional role"),
   ("currency", "Salary currency of first professional role")]

/-- AIDocumentProcessor.format_first_role_key: table lookup, the key itself
as fallback (`mapping.get(key, key)`). -/
def format_first_role_key (k : String) : String := (first_role_mapping.lookup k).getD k

/-- mapping of format_current_role_key. -/
def current_role_mapping : List (String × String) :=
  [("organization", "Current Organization"), ("joining_date", "Current Joining Date"),
   ("designation", "Current Designation"), ("salary", "Current Salary"),
   ("currency", "Current Salary Currency")]

/-- AIDocumentProcessor.format_current_role_key. -/
def format_current_role_key (k : String) : String := (current_role_mapping.lookup k).getD k

/-- mapping of format_previous_role_key. -/
def previous_role_mapping : List (String × String) :=
  [("organization", "Previous Organization"), ("joining_date", "Previous Joining Date"),
   ("end_year", "Previous end year"), ("starting_designation", "Previous Starting Designation")]

/-- AIDocumentProcessor.format_previous_role_key. -/
def format_previous_role_key (k : String) : String := (previous_role_mapping.lookup k).getD k

/-- mapping of format_undergraduate_key. -/
def undergraduate_mapping : List (String × String) :=
  [("degree", "Undergraduate degree"), ("college", "Undergraduate college"),
   ("year", "Undergraduate year"), ("cgpa", "Undergraduate CGPA")]

/-- AIDocumentProcessor.format_undergraduate_key. -/
def format_undergraduate_key (k : String) : String := (undergraduate_mapping.lookup k).getD k

/-- mapping of format_graduation_key. -/
def graduation_mapping : List (String × String) :=
  [("degree", "Graduation degree"), ("college", "Graduation college"),
   ("year", "Graduation year"), ("cgpa", "Graduation CGPA")]

/-- AIDocumentProcessor.format_graduation_key. -/
def format_graduation_key (k : String) : String := (graduation_mapping.lookup k).getD k

/-- personal_comments of structure_ai_output. -/
def personal_comments : List (String × String) :=
  [("birth_city", birthComment), ("birth_state", birthComment), ("age", ageComment),
   ("blood_group", "Emergency contact purposes."), ("nationality", nationalityComment)]

/-- professional_comments of structure_ai_output. -/
def professional_comments : List (String × String) :=
  [("current_salary", currentSalaryComment),
   ("previous_starting_designation", "Promoted in 2019")]

/-- education_comments of structure_ai_output. -/
def education_comments : List (String × String) :=
  [("12th_passout_year", "His core subjects included Mathematics, Physics, Chemistry, and Computer Science, demonstrating his early aptitude for technical disciplines."),
   ("12th_board_score", "Outstanding achievement"),
   ("undergraduate_year", "Graduating with honors and ranking 15th among 120 students in his class."),
   ("undergraduate_cgpa", "On a 10-point scale"),
   ("graduation_cgpa", "Considered exceptional and scoring 95 out of 100 for his final year thesis project."),
   ("graduation_college", "Continued academic excellence at IIT Bombay")]

/-- certification_comments of structure_ai_output, keyed by 0-based index. -/
def certification_comments : List (Nat × String) :=
  [(0, "Vijay's commitment to continuous learning is evident through his impressive certification scores. He passed the AWS Solutions Architect exam in 2019 with a score of 920 out of 1000"),
   (1, "Pursued in the year 2020 with 875 points."),
   (2, "Obtained in 2021, was achieved with an \"Above Target\" rating from PMI, These certifications complement his practical experience and demonstrate his expertise across multiple technology platforms."),
   (3, "Earned him an outstanding 98% score. Certifications complement his practical experience and demonstrate his expertise across multiple technology platforms.")]

/-- `certification_comments.get(i, "")`. -/
def certComment (i : Nat) : String := (certification_comments.lookup i).getD ""

/-- One key/value section of structure_ai_output: a row per pair, the running
record number incremented per row, label and comment resolved per key. -/
def rowsOf (fk : String → String) (fc : String → String) : Nat → List (String × String) → List Row
  | _, [] => []
  | n, (k, v) :: rest => ⟨n, fk k, .str v, fc k⟩ :: rowsOf fk fc (n + 1) rest

/-- The certification section: `for i, cert in enumerate(...)`, key
"Certifications i+1", value the certification name, comment by index. -/
def certRowsA : Nat → Nat → List Cert → List Row
  | _, _, [] => []
  | n, i, c :: rest =>
    ⟨n, "Certifications " ++ toString (i + 1), .str c.name, certComment i⟩
      :: certRowsA (n + 1) (i + 1) rest

/-- AIDocumentProcessor.structure_ai_output: flattens the nested structure
into rows, `record_num` starting at 1 and incremented per appended row (the
final technical-proficiency row reuses the current counter). -/
def structure_ai_output (d : AIData) : List Row :=
  let p := rowsOf format_key_name (fun k => (personal_comments.lookup k).getD "") 1 d.personal_info
  let n1 := 1 + d.personal_info.length
  let fr := rowsOf format_first_role_key (fun _ => "") n1 d.first_role
  let n2 := n1 + d.first_role.length
  let cr := rowsOf format_current_role_key
    (fun k => (professional_comments.lookup ("current_" ++ k)).getD "") n2 d.current_role
  let n3 := n2 + d.current_role.length
  let pr := rowsOf format_previous_role_key
    (fun k => (professional_comments.lookup ("previous_" ++ k)).getD "") n3 d.previous_role
  let n4 := n3 + d.previous_role.length
  let eduFixed : List Row :=
    [⟨n4, "High School", .str d.high_school, ""⟩,
     ⟨n4 + 1, "12th standard pass out year", .str d.passout12,
      (education_comments.lookup "12th_passout_year").getD ""⟩,
     ⟨n4 + 2, "12th overall board score", .str d.board12,
      (education_comments.lookup "12th_board_score").getD ""⟩]
  let n5 := n4 + 3
  let ug := rowsOf format_undergraduate_key
    (fun k => (education_comments.lookup ("undergraduate_" ++ k)).getD "") n5 d.undergraduate
  let n6 := n5 + d.undergraduate.length
  let gr := rowsOf format_graduation_key
    (fun k => (education_comments.lookup ("graduation_" ++ k)).getD "") n6 d.graduation
  let n7 := n6 + d.graduation.length
  let certs := certRowsA n7 0 d.certifications
  let n8 := n7 + d.certifications.length
  p ++ fr ++ cr ++ pr ++ eduFixed ++ ug ++ gr ++ certs
    ++ [⟨n8, "Technical Proficiency", .str "", d.technical_proficiency⟩]

/-- AIDocumentProcessor.process_document: simulated extraction, then
structuring. -/
def process_document (text : String) : List Row :=
  structure_ai_output (simulate_ai_extraction text)

/-! ## JSON export (save_to_json) and re-parsing

Models `json.dump(data, f, indent=2, default=str, ensure_ascii=False)` on the
row list: the exact byte layout (two-space indent, item separator a comma and
newline, key separator a colon and space) and the exact escaping rules of the
json module (backslash, quote, the five named control escapes, `uNNNN` for the
other characters below 0x20, everything else verbatim), together with a parser
for that grammar — the model of `json.load` on such a document. -/

/-- The decimal digit character for `n < 10`. -/
def digitChar (n : Nat) : Char :=
  if n = 0 then '0' else if n = 1 then '1' else if n = 2 then '2' else if n = 3 then '3'
  else if n = 4 then '4' else if n = 5 then '5' else if n = 6 then '6' else if n = 7 then '7'
  else if n = 8 then '8' else '9'

/-- Decimal digits of `n`, most significant first (fuel-structured). -/
def natDigsGo : Nat → Nat → List Char
  | 0, _ => []
  | fuel + 1, n =>
    if n < 10 then [digitChar n] else natDigsGo fuel (n / 10) ++ [digitChar (n % 10)]

/-- Decimal digits of `n`. -/
def natDigs (n : Nat) : List Char := natDigsGo (n + 1) n

/-- The digit part of a `Dec`, with the decimal point when `e > 0`
(zero-padded on the left so at least one digit precedes the point);
this is the repr Python prints for the decimal values the program stores. -/
def decDigits (d : Dec) : List Char :=
  let ds := natDigs d.m.natAbs
  if d.e = 0 then ds
  else
    let ds2 := List.replicate (d.e + 1 - ds.length) '0' ++ ds
    ds2.take (ds2.length - d.e) ++ '.' :: ds2.drop (ds2.length - d.e)

/-- Lowercase hexadecimal digit for `n < 16`. -/
def hexDig (n : Nat) : Char :=
  if n < 10 then digitChar n
  else if n = 10 then 'a' else if n = 11 then 'b' else if n = 12 then 'c'
  else if n = 13 then 'd' else if n = 14 then 'e' else 'f'

/-- JSON escape of one character (the json module with ensure_ascii=False). -/
def escChar (c : Char) : List Char :=
  if c = '"' then ['\\', '"']
  else if c = '\\' then ['\\', '\\']
  else if c = '\n' then ['\\', 'n']
  else if c = '\t' then ['\\', 't']
  else if c = '\r' then ['\\', 'r']
  else if c = '\x08' then ['\\', 'b']
  else if c = '\x0c' then ['\\', 'f']
  else if c.toNat < 32 then ['\\', 'u', '0', '0', hexDig (c.toNat / 16), hexDig (c.toNat % 16)]
  else [c]

/-- JSON escape of a character list. -/
def escape : List Char → List Char
  | [] => []
  | c :: rest => escChar c ++ escape rest

/-- A JSON string literal: quote, escaped body, quote. -/
def serStr (s : String) : List Char := '"' :: (escape s.data ++ ['"'])

/-- A JSON value: string or number (sign and digits). -/
def serVal : JVal → List Char
  | .str s => serStr s
  | .num d => (if d.m < 0 then ['-'] else []) ++ decDigits d

/-- `"  {\n    \"#\": "` — a row object opens (indent 2, then indent 4). -/
def rowOpen : List Char := [' ', ' ', '{', '\n', ' ', ' ', ' ', ' ', '"', '#', '"', ':', ' ']

/-- `",\n    \"Key\": "` -/
def keySep : List Char := [',', '\n', ' ', ' ', ' ', ' ', '"', 'K', 'e', 'y', '"', ':', ' ']

/-- `",\n    \"Value\": "` -/
def valSep : List Char :=
  [',', '\n', ' ', ' ', ' ', ' ', '"', 'V', 'a', 'l', 'u', 'e', '"', ':', ' ']

/-- `",\n    \"Comments\": "` -/
def comSep : List Char :=
  [',', '\n', ' ', ' ', ' ', ' ', '"', 'C', 'o', 'm', 'm', 'e', 'n', 't', 's', '"', ':', ' ']

/-- `"\n  }"` — a row object closes. -/
def rowClose : List Char := ['\n', ' ', ' ', '}']

/-- One serialised row object. -/
def serRow (r : Row) : List Char :=
  rowOpen ++ natDigs r.num ++ keySep ++ serStr r.key ++ valSep ++ serVal r.val
    ++ comSep ++ serStr r.comments ++ rowClose

/-- The per-item separator and the remaining rows. -/
def serRowsTail : List Row → List Char
  | [] => []
  | r :: rest => ',' :: '\n' :: (serRow r ++ serRowsTail rest)

/-- The full document: `[\n`, rows joined by `,\n`, `\n]` (and `[]` for no
rows, as json.dump prints, though save_to_json refuses that case). -/
def serRows : List Row → List Char
  | [] => ['[', ']']
  | r :: rest => '[' :: '\n' :: (serRow r ++ serRowsTail rest ++ ['\n', ']'])

/-- DocumentProcessor.save_to_json: raises on an empty row list, else writes
the serialised document. -/
def save_to_json (rows : List Row) : Option (List Char) :=
  if rows = [] then none else some (serRows rows)

/-- Consume an expected literal prefix. -/
def parseLit : List Char → List Char → Option (List Char)
  | [], s => some s
  | _ :: _, [] => none
  | l :: ls, c :: rest => if c = l then parseLit ls rest else none

/-- Numeric value of a digit string. -/
def headDigit : List Char → Bool
  | [] => false
  | c :: _ => c.isDigit

/-- Whether a number literal may end here (next char extends no number). -/
def numStop : List Char → Bool
  | [] => true
  | c :: _ => !(c.isDigit || c = '.')

/-- Parse a nonempty digit run as a natural number. -/
def parseNat (s : List Char) : Option (Nat × List Char) :=
  let ds := s.takeWhile Char.isDigit
  if ds.isEmpty then none else some (digitsVal ds, s.dropWhile Char.isDigit)

/-- Hexadecimal value of a digit (lowercase letters). -/
def hexVal (c : Char) : Nat := if c.isDigit then c.toNat - 48 else c.toNat - 87

/-- The character a named escape denotes (identity on quote and backslash). -/
def unesc (e : Char) : Char :=
  if e = 'n' then '\n' else if e = 't' then '\t' else if e = 'r' then '\r'
  else if e = 'b' then '\x08' else if e = 'f' then '\x0c' else e

/-- Parse a JSON string body up to the closing quote. -/
def parseStrBody : List Char → Option (List Char × List Char)
  | [] => none
  | c :: rest =>
    if c = '"' then some ([], rest)
    else if c = '\\' then
      match rest with
      | 'u' :: h1 :: h2 :: h3 :: h4 :: rest2 =>
        (parseStrBody rest2).map (fun p =>
          (Char.ofNat (((hexVal h1 * 16 + hexVal h2) * 16 + hexVal h3) * 16 + hexVal h4)
            :: p.1, p.2))
      | e :: rest2 => (parseStrBody rest2).map (fun p => (unesc e :: p.1, p.2))
      | [] => none
    else (parseStrBody rest).map (fun p => (c :: p.1, p.2))

/-- Parse a JSON string literal. -/
def parseStr : List Char → Option (String × List Char)
  | '"' :: rest => (parseStrBody rest).map (fun p => (String.mk p.1, p.2))
  | _ => none

/-- Parse a JSON number (optional sign, digits, optional fraction). -/
def parseNum (s : List Char) : Option (Dec × List Char) :=
  let neg : Bool := s.head? == some '-'
  let s1 := if neg then s.tail else s
  let ds := s1.takeWhile Char.isDigit
  let r1 := s1.dropWhile Char.isDigit
  if ds.isEmpty then none
  else if r1.head? == some '.' then
    let r2 := r1.tail
    let fs := r2.takeWhile Char.isDigit
    let r3 := r2.dropWhile Char.isDigit
    if fs.isEmpty then none else
    some (⟨if neg then -(digitsVal (ds ++ fs) : Int) else (digitsVal (ds ++ fs) : Int),
           fs.length⟩, r3)
  else some (⟨if neg then -(digitsVal ds : Int) else (digitsVal ds : Int), 0⟩, r1)

/-- Parse a JSON value: a string when a quote opens, else a number. -/
def parseVal (s : List Char) : Option (JVal × List Char) :=
  if s.head? == some '"' then (parseStr s).map (fun p => (.str p.1, p.2))
  else (parseNum s).map (fun p => (.num p.1, p.2))

/-- Parse one row object. -/
def parseRow (s : List Char) : Option (Row × List Char) := do
  let s1 ← parseLit rowOpen s
  let (n, s2) ← parseNat s1
  let s3 ← parseLit keySep s2
  let (k, s4) ← parseStr s3
  let s5 ← parseLit valSep s4
  let (v, s6) ← parseVal s5
  let s7 ← parseLit comSep s6
  let (cm, s8) ← parseStr s7
  let s9 ← parseLit rowClose s8
  some (⟨n, k, v, cm⟩, s9)

/-- Parse the rows of the array body (fuel per row). -/
def parseRowsAux : Nat → List Char → Option (List Row × List Char)
  | 0, _ => none
  | fuel + 1, s => do
    let (r, s1) ← parseRow s
    match s1 with
    | ',' :: '\n' :: s2 => (parseRowsAux fuel s2).map (fun p => (r :: p.1, p.2))
    | '\n' :: ']' :: s2 => some ([r], s2)
    | _ => none

/-- Parse a whole nonempty-array document, requiring all input consumed. -/
def parseRows (s : List Char) : Option (List Row) := do
  let s1 ← parseLit ['[', '\n'] s
  let (rows, s2) ← parseRowsAux (s1.length + 1) s1
  if s2.isEmpty then some rows else none

/-! ## Round-trip lemmas for the JSON export -/

theorem parseLit_self (lit rest : List Char) : parseLit lit (lit ++ rest) = some rest := by
  induction lit with
  | nil => rfl
  | cons c ls ih => simp [parseLit, ih]

theorem digitsVal_append (ds : List Char) (c : Char) :
    digitsVal (ds ++ [c]) = 10 * digitsVal ds + (c.toNat - 48) := by
  simp [digitsVal, List.foldl_append]

theorem digitChar_spec (n : Nat) (h : n < 10) :
    (digitChar n).isDigit = true ∧ (digitChar n).toNat - 48 = n := by
  interval_cases n <;> exact ⟨by decide, by decide⟩

theorem natDigsGo_spec (fuel : Nat) : ∀ n, n < fuel →
    (∀ c ∈ natDigsGo fuel n, c.isDigit = true) ∧ digitsVal (natDigsGo fuel n) = n ∧
      natDigsGo fuel n ≠ [] := by
  induction fuel with
  | zero => intro n h; omega
  | succ fuel ih =>
    intro n h
    by_cases h10 : n < 10
    · obtain ⟨hd, hv⟩ := digitChar_spec n h10
      refine ⟨?_, ?_, by simp [natDigsGo, h10]⟩
      · intro c hc
        simp [natDigsGo, h10] at hc
        simpa [hc] using hd
      · simp [natDigsGo, h10, digitsVal, hv]
    · have hpos : 0 < n := by omega
      have hdiv : n / 10 < fuel := by
        have := Nat.div_lt_self hpos (by norm_num : 1 < 10)
        omega
      obtain ⟨ihd, ihv, _⟩ := ih (n / 10) hdiv
      obtain ⟨hd, hv⟩ := digitChar_spec (n % 10) (Nat.mod_lt n (by norm_num))
      refine ⟨?_, ?_, by simp [natDigsGo, h10]⟩
      · intro c hc
        simp [natDigsGo, h10] at hc
        rcases hc with hc | hc
        · exact ihd c hc
        · simpa [hc] using hd
      · simp only [natDigsGo, h10, if_false]
        rw [digitsVal_append, ihv, hv]
        omega

theorem natDigs_spec (n : Nat) :
    (∀ c ∈ natDigs n, c.isDigit = true) ∧ digitsVal (natDigs n) = n ∧ natDigs n ≠ [] :=
  natDigsGo_spec (n + 1) n (Nat.lt_succ_self n)

theorem digits_split : ∀ (ds rest : List Char),
    (∀ c ∈ ds, Char.isDigit c = true) → headDigit rest = false →
    (ds ++ rest).takeWhile Char.isDigit = ds ∧ (ds ++ rest).dropWhile Char.isDigit = rest := by
  intro ds
  induction ds with
  | nil =>
    intro rest _ h2
    cases rest with
    | nil => simp
    | cons c t =>
      simp [headDigit] at h2
      simp [List.takeWhile_cons, List.dropWhile_cons, h2]
  | cons c ds ih =>
    intro rest h h2
    have hc : Char.isDigit c = true := h c (by simp)
    have := ih rest (fun x hx => h x (by simp [hx])) h2
    simp [List.takeWhile_cons, List.dropWhile_cons, hc, this.1, this.2]

theorem parseNat_spec (n : Nat) (rest : List Char) (h : headDigit rest = false) :
    parseNat (natDigs n ++ rest) = some (n, rest) := by
  obtain ⟨hd, hv, hne⟩ := natDigs_spec n
  obtain ⟨ht, hdr⟩ := digits_split (natDigs n) rest hd h
  simp [parseNat, ht, hdr, hv, hne]

theorem hexVal_hexDig (m : Nat) (h : m < 16) : hexVal (hexDig m) = m := by
  interval_cases m <;> decide


theorem psb_quote (rest : List Char) : parseStrBody ('"' :: rest) = some ([], rest) := by
  conv_lhs => rw [parseStrBody.eq_def]
  simp

theorem psb_esc_u (h1 h2 h3 h4 : Char) (rest : List Char) :
    parseStrBody ('\\' :: 'u' :: h1 :: h2 :: h3 :: h4 :: rest) =
      (parseStrBody rest).map (fun p =>
        (Char.ofNat (((hexVal h1 * 16 + hexVal h2) * 16 + hexVal h3) * 16 + hexVal h4)
          :: p.1, p.2)) := by
  conv_lhs => rw [parseStrBody.eq_def]
  simp

theorem psb_esc_n (rest : List Char) :
    parseStrBody ('\\' :: 'n' :: rest) =
      (parseStrBody rest).map (fun p => ('\n' :: p.1, p.2)) := by
  conv_lhs => rw [parseStrBody.eq_def]
  simp [unesc]

theorem psb_esc_t (rest : List Char) :
    parseStrBody ('\\' :: 't' :: rest) =
      (parseStrBody rest).map (fun p => ('\t' :: p.1, p.2)) := by
  conv_lhs => rw [parseStrBody.eq_def]
  simp [unesc]

theorem psb_esc_r (rest : List Char) :
    parseStrBody ('\\' :: 'r' :: rest) =
      (parseStrBody rest).map (fun p => ('\r' :: p.1, p.2)) := by
  conv_lhs => rw [parseStrBody.eq_def]
  simp [unesc]

theorem psb_esc_b (rest : List Char) :
    parseStrBody ('\\' :: 'b' :: rest) =
      (parseStrBody rest).map (fun p => ('\x08' :: p.1, p.2)) := by
  conv_lhs => rw [parseStrBody.eq_def]
  simp [unesc]

theorem psb_esc_f (rest : List Char) :
    parseStrBody ('\\' :: 'f' :: rest) =
      (parseStrBody rest).map (fun p => ('\x0c' :: p.1, p.2)) := by
  conv_lhs => rw [parseStrBody.eq_def]
  simp [unesc]

theorem psb_esc_quote (rest : List Char) :
    parseStrBody ('\\' :: '"' :: rest) =
      (parseStrBody rest).map (fun p => ('"' :: p.1, p.2)) := by
  conv_lhs => rw [parseStrBody.eq_def]
  simp [unesc]

theorem psb_esc_bs (rest : List Char) :
    parseStrBody ('\\' :: '\\' :: rest) =
      (parseStrBody rest).map (fun p => ('\\' :: p.1, p.2)) := by
  conv_lhs => rw [parseStrBody.eq_def]
  simp [unesc]

theorem psb_char (c : Char) (rest : List Char) (hq : ¬c = '"') (hb : ¬c = '\\') :
    parseStrBody (c :: rest) = (parseStrBody rest).map (fun p => (c :: p.1, p.2)) := by
  rw [parseStrBody.eq_def]
  simp only [if_neg hq, if_neg hb]

theorem parseStrBody_escape : ∀ (cs rest : List Char),
    parseStrBody (escape cs ++ ('"' :: rest)) = some (cs, rest) := by
  intro cs
  induction cs with
  | nil => intro rest; exact psb_quote rest
  | cons c cs ih =>
    intro rest
    show parseStrBody ((escChar c ++ escape cs) ++ '"' :: rest) = _
    rw [List.append_assoc]
    by_cases h1 : c = '"'
    · subst h1
      rw [show escChar '"' = ['\\', '"'] from rfl, List.cons_append, List.cons_append,
        List.nil_append, psb_esc_quote, ih]
      rfl
    · by_cases h2 : c = '\\'
      · subst h2
        rw [show escChar '\\' = ['\\', '\\'] from rfl, List.cons_append, List.cons_append,
          List.nil_append, psb_esc_bs, ih]
        rfl
      · by_cases h3 : c = '\n'
        · subst h3
          rw [show escChar '\n' = ['\\', 'n'] from rfl, List.cons_append, List.cons_append,
            List.nil_append, psb_esc_n, ih]
          rfl
        · by_cases h4 : c = '\t'
          · subst h4
            rw [show escChar '\t' = ['\\', 't'] from rfl, List.cons_append, List.cons_append,
              List.nil_append, psb_esc_t, ih]
            rfl
          · by_cases h5 : c = '\r'
            · subst h5
              rw [show escChar '\r' = ['\\', 'r'] from rfl, List.cons_append, List.cons_append,
                List.nil_append, psb_esc_r, ih]
              rfl
            · by_cases h6 : c = '\x08'
              · subst h6
                rw [show escChar '\x08' = ['\\', 'b'] from rfl, List.cons_append,
                  List.cons_append, List.nil_append, psb_esc_b, ih]
                rfl
              · by_cases h7 : c = '\x0c'
                · subst h7
                  rw [show escChar '\x0c' = ['\\', 'f'] from rfl, List.cons_append,
                    List.cons_append, List.nil_append, psb_esc_f, ih]
                  rfl
                · by_cases h8 : c.toNat < 32
                  · have hdiv : c.toNat / 16 < 16 := by omega
                    have hmod : c.toNat % 16 < 16 := by omega
                    have hesc : escChar c =
                        ['\\', 'u', '0', '0', hexDig (c.toNat / 16), hexDig (c.toNat % 16)] := by
                      simp [escChar, h1, h2, h3, h4, h5, h6, h7, h8]
                    rw [hesc]
                    simp only [List.cons_append, List.nil_append]
                    rw [psb_esc_u, ih]
                    have h0 : hexVal '0' = 0 := by decide
                    rw [hexVal_hexDig _ hdiv, hexVal_hexDig _ hmod, h0]
                    have hc : ((0 * 16 + 0) * 16 + c.toNat / 16) * 16 + c.toNat % 16
                        = c.toNat := by omega
                    rw [hc, Char.ofNat_toNat]
                    rfl
                  · have hesc : escChar c = [c] := by
                      simp [escChar, h1, h2, h3, h4, h5, h6, h7, h8]
                    rw [hesc, List.cons_append, List.nil_append, psb_char c _ h1 h2, ih]
                    rfl

theorem parseStr_serStr (s : String) (rest : List Char) :
    parseStr (serStr s ++ rest) = some (s, rest) := by
  show parseStr ('"' :: (escape s.data ++ ['"']) ++ rest) = _
  have h : (escape s.data ++ ['"']) ++ rest = escape s.data ++ ('"' :: rest) := by
    simp [List.append_assoc]
  rw [List.cons_append, h, parseStr, parseStrBody_escape]
  rfl

theorem isEmpty_false_of_ne_nil {l : List Char} (h : l ≠ []) : l.isEmpty = false := by
  cases l with
  | nil => exact absurd rfl h
  | cons c t => rfl

theorem digitsVal_replicate0 (k : Nat) (ds : List Char) :
    digitsVal (List.replicate k '0' ++ ds) = digitsVal ds := by
  induction k with
  | zero => simp
  | succ k ih =>
    have hsh : List.replicate (k + 1) '0' ++ ds = '0' :: (List.replicate k '0' ++ ds) := by
      simp [List.replicate_succ]
    rw [hsh]
    show List.foldl _ (10 * 0 + ('0'.toNat - 48)) _ = _
    rw [show (10 * 0 + ('0'.toNat - 48)) = 0 from by decide]
    exact ih

theorem decDigits_parts (d : Dec) (h : d.e ≠ 0) :
    ∃ A B, decDigits d = A ++ '.' :: B ∧ A ≠ [] ∧ B ≠ [] ∧ B.length = d.e ∧
      (∀ c ∈ A, c.isDigit = true) ∧ (∀ c ∈ B, c.isDigit = true) ∧
      digitsVal (A ++ B) = d.m.natAbs := by
  obtain ⟨hd, hv, hne⟩ := natDigs_spec d.m.natAbs
  have h1 : 1 ≤ (natDigs d.m.natAbs).length := List.length_pos.mpr hne
  have hmem : ∀ c ∈ List.replicate (d.e + 1 - (natDigs d.m.natAbs).length) '0'
      ++ natDigs d.m.natAbs, c.isDigit = true := by
    intro c hc
    rcases List.mem_append.mp hc with hx | hx
    · have := List.eq_of_mem_replicate hx; subst this; decide
    · exact hd c hx
  refine ⟨(List.replicate (d.e + 1 - (natDigs d.m.natAbs).length) '0'
      ++ natDigs d.m.natAbs).take ((List.replicate (d.e + 1 - (natDigs d.m.natAbs).length) '0'
      ++ natDigs d.m.natAbs).length - d.e),
    (List.replicate (d.e + 1 - (natDigs d.m.natAbs).length) '0'
      ++ natDigs d.m.natAbs).drop ((List.replicate (d.e + 1 - (natDigs d.m.natAbs).length) '0'
      ++ natDigs d.m.natAbs).length - d.e), ?_, ?_, ?_, ?_, ?_, ?_, ?_⟩
  · simp [decDigits, h]
  · intro hnil
    have := congrArg List.length hnil
    simp [List.length_take, List.length_append, List.length_replicate] at this
    omega
  · intro hnil
    have := congrArg List.length hnil
    simp [List.length_drop, List.length_append, List.length_replicate] at this
    omega
  · simp [List.length_drop, List.length_append, List.length_replicate]
    omega
  · intro c hc
    exact hmem c (List.take_subset _ _ hc)
  · intro c hc
    exact hmem c (List.drop_subset _ _ hc)
  · rw [List.take_append_drop, digitsVal_replicate0]
    exact hv

theorem decDigits_head (d : Dec) : ∃ c t, decDigits d = c :: t ∧ c.isDigit = true := by
  by_cases h : d.e = 0
  · obtain ⟨hd, _, hne⟩ := natDigs_spec d.m.natAbs
    have heq : decDigits d = natDigs d.m.natAbs := by simp [decDigits, h]
    cases hx : natDigs d.m.natAbs with
    | nil => exact absurd hx hne
    | cons c t => exact ⟨c, t, by rw [heq, hx], hd c (by rw [hx]; simp)⟩
  · obtain ⟨A, B, heq, hA, _, _, hdigA, _, _⟩ := decDigits_parts d h
    cases hx : A with
    | nil => exact absurd hx hA
    | cons c t =>
      exact ⟨c, t ++ '.' :: B, by rw [heq, hx]; simp, hdigA c (by rw [hx]; simp)⟩

theorem numStop_facts {rest : List Char} (h : numStop rest = true) :
    headDigit rest = false ∧ (rest.head? == some '.') = false := by
  cases rest with
  | nil => exact ⟨rfl, rfl⟩
  | cons c t =>
    simp [numStop] at h
    refine ⟨by simp [headDigit, h.1], ?_⟩
    simp [List.head?]
    exact h.2

theorem head_cons_not_dash {c : Char} (t : List Char) (h : c.isDigit = true) :
    ((c :: t).head? == some '-') = false := by
  by_cases hc : c = '-'
  · subst hc; exact absurd h (by decide)
  · simp [List.head?]
    exact hc

theorem decDigits_not_dash (d : Dec) (rest : List Char) :
    ((decDigits d ++ rest).head? == some '-') = false := by
  obtain ⟨c, t, heq, hdig⟩ := decDigits_head d
  rw [heq]
  exact head_cons_not_dash _ hdig

theorem parseNum_core (d : Dec) (rest : List Char) (hstop : numStop rest = true)
    (neg : Bool) (m2 : Int)
    (hm2 : m2 = if neg then -(d.m.natAbs : Int) else (d.m.natAbs : Int)) :
    (let s1 := decDigits d ++ rest
     let ds := s1.takeWhile Char.isDigit
     let r1 := s1.dropWhile Char.isDigit
     if ds.isEmpty then none
     else if r1.head? == some '.' then
       let r2 := r1.tail
       let fs := r2.takeWhile Char.isDigit
       let r3 := r2.dropWhile Char.isDigit
       if fs.isEmpty then none else
       some ((⟨if neg then -(digitsVal (ds ++ fs) : Int) else (digitsVal (ds ++ fs) : Int),
              fs.length⟩ : Dec), r3)
     else some ((⟨if neg then -(digitsVal ds : Int) else (digitsVal ds : Int), 0⟩ : Dec), r1))
      = some (⟨m2, d.e⟩, rest) := by
  obtain ⟨hhd, hdot⟩ := numStop_facts hstop
  by_cases he : d.e = 0
  · have heq : decDigits d = natDigs d.m.natAbs := by simp [decDigits, he]
    obtain ⟨hd, hv, hne⟩ := natDigs_spec d.m.natAbs
    obtain ⟨ht, hdr⟩ := digits_split _ rest hd hhd
    rw [heq] at *
    simp only [ht, hdr, isEmpty_false_of_ne_nil hne, hdot, Bool.false_eq_true, if_false,
      hv, he, hm2]
  · obtain ⟨A, B, heq, hA, hB, hBlen, hdigA, hdigB, hval⟩ := decDigits_parts d he
    have hshape : decDigits d ++ rest = A ++ ('.' :: (B ++ rest)) := by
      rw [heq]; simp
    have hddot : headDigit ('.' :: (B ++ rest)) = false := by
      simp only [headDigit]; decide
    obtain ⟨htA, hdrA⟩ := digits_split A ('.' :: (B ++ rest)) hdigA hddot
    obtain ⟨htB, hdrB⟩ := digits_split B rest hdigB hhd
    rw [hshape]
    simp only [htA, hdrA, isEmpty_false_of_ne_nil hA, List.head?, List.tail, htB, hdrB,
      isEmpty_false_of_ne_nil hB, hBlen, hval, hm2]
    simp

theorem parseNum_serNum (d : Dec) (rest : List Char) (hstop : numStop rest = true) :
    parseNum (serVal (.num d) ++ rest) = some (d, rest) := by
  by_cases hm : d.m < 0
  · have hs : serVal (.num d) ++ rest = '-' :: (decDigits d ++ rest) := by
      simp [serVal, hm]
    rw [hs]
    have hd : (⟨-(d.m.natAbs : Int), d.e⟩ : Dec) = d := by
      have h1 : -(d.m.natAbs : Int) = d.m := by omega
      rw [h1]
    have core := parseNum_core d rest hstop true (-(d.m.natAbs : Int)) rfl
    rw [hd] at core
    exact core
  · have hs : serVal (.num d) ++ rest = decDigits d ++ rest := by
      simp [serVal, hm]
    rw [hs]
    have hd : (⟨(d.m.natAbs : Int), d.e⟩ : Dec) = d := by
      have h1 : (d.m.natAbs : Int) = d.m := by omega
      rw [h1]
    have core := parseNum_core d rest hstop false ((d.m.natAbs : Int)) rfl
    rw [hd] at core
    simp only [parseNum, decDigits_not_dash d rest, Bool.false_eq_true, if_false]
    exact core

theorem parseVal_serVal (v : JVal) (rest : List Char) (hstop : numStop rest = true) :
    parseVal (serVal v ++ rest) = some (v, rest) := by
  cases v with
  | str s =>
    have hq : ((serStr s ++ rest).head? == some '"') = true := by
      show ((('"' :: _) ++ rest).head? == some '"') = true
      simp [List.head?]
    simp only [serVal, parseVal, hq, if_true]
    rw [parseStr_serStr]
    rfl
  | num d =>
    have hq : ((serVal (.num d) ++ rest).head? == some '"') = false := by
      by_cases hm : d.m < 0
      · have hs : serVal (.num d) ++ rest = '-' :: (decDigits d ++ rest) := by
          simp [serVal, hm]
        rw [hs]; simp [List.head?]
      · have hs : serVal (.num d) ++ rest = decDigits d ++ rest := by
          simp [serVal, hm]
        rw [hs]
        obtain ⟨c, t, heq, hdig⟩ := decDigits_head d
        rw [heq]
        simp only [List.cons_append, List.head?]
        rw [beq_eq_false_iff_ne]
        simp only [ne_eq, Option.some.injEq]
        intro hc; subst hc; exact absurd hdig (by decide)
    simp only [parseVal, hq, Bool.false_eq_true, if_false]
    rw [parseNum_serNum d rest hstop]
    rfl

theorem parseRow_serRow (r : Row) (rest : List Char) :
    parseRow (serRow r ++ rest) = some (r, rest) := by
  obtain ⟨n, k, v, cm⟩ := r
  have hs : serRow ⟨n, k, v, cm⟩ ++ rest =
      rowOpen ++ (natDigs n ++ (keySep ++ (serStr k ++ (valSep ++ (serVal v ++
        (comSep ++ (serStr cm ++ (rowClose ++ rest)))))))) := by
    simp [serRow, List.append_assoc]
  have h1 : headDigit (keySep ++ (serStr k ++ (valSep ++ (serVal v ++
      (comSep ++ (serStr cm ++ (rowClose ++ rest))))))) = false := by
    simp [keySep, headDigit]
  have h2 : numStop (comSep ++ (serStr cm ++ (rowClose ++ rest))) = true := by
    simp [comSep, numStop]
  rw [hs]
  simp only [parseRow, parseLit_self, parseNat_spec n _ h1, parseStr_serStr,
    parseVal_serVal v _ h2, Option.bind_eq_bind, Option.some_bind]

theorem serRowsTail_length (rs : List Row) : rs.length ≤ (serRowsTail rs).length := by
  induction rs with
  | nil => simp [serRowsTail]
  | cons r t ih =>
    simp only [serRowsTail, List.length_cons, List.length_append]
    omega

theorem parseRowsAux_spec : ∀ (rs : List Row) (fuel : Nat) (r : Row) (rest : List Char),
    rs.length < fuel →
    parseRowsAux fuel (serRow r ++ (serRowsTail rs ++ ('\n' :: ']' :: rest)))
      = some (r :: rs, rest) := by
  intro rs
  induction rs with
  | nil =>
    intro fuel r rest h
    cases fuel with
    | zero => omega
    | succ fuel =>
      simp only [serRowsTail, List.nil_append, parseRowsAux, parseRow_serRow,
        Option.bind_eq_bind, Option.some_bind]
  | cons r2 rs ih =>
    intro fuel r rest h
    cases fuel with
    | zero => simp at h
    | succ fuel =>
      have hsh : serRow r ++ (serRowsTail (r2 :: rs) ++ ('\n' :: ']' :: rest))
          = serRow r ++ (',' :: '\n' :: (serRow r2 ++ (serRowsTail rs ++ ('\n' :: ']' :: rest)))) := by
        simp [serRowsTail, List.append_assoc]
      rw [hsh]
      simp only [parseRowsAux, parseRow_serRow, Option.bind_eq_bind, Option.some_bind]
      rw [ih fuel r2 rest (by simpa using Nat.lt_of_succ_lt_succ h)]
      rfl

theorem parseRows_serRows (rows : List Row) (h : rows ≠ []) :
    parseRows (serRows rows) = some rows := by
  cases rows with
  | nil => exact absurd rfl h
  | cons r rs =>
    have hs : serRows (r :: rs) = ['[', '\n'] ++ (serRow r ++ (serRowsTail rs
        ++ ('\n' :: ']' :: []))) := by
      simp [serRows, List.append_assoc]
    rw [hs]
    have hlen : rs.length < (serRow r ++ (serRowsTail rs ++ ('\n' :: ']' :: []))).length + 1 := by
      have := serRowsTail_length rs
      simp only [List.length_append]
      omega
    simp only [parseRows, parseLit_self, Option.bind_eq_bind, Option.some_bind]
    rw [parseRowsAux_spec rs _ r [] hlen]
    rfl

/-! ## Structural lemmas for the AI-path flattener -/

theorem rowsOf_length (fk fc : String → String) : ∀ (kvs : List (String × String)) (n : Nat),
    (rowsOf fk fc n kvs).length = kvs.length := by
  intro kvs
  induction kvs with
  | nil => intro n; rfl
  | cons kv rest ih =>
    intro n
    obtain ⟨k, v⟩ := kv
    simp [rowsOf, ih]

theorem rowsOf_map_num (fk fc : String → String) : ∀ (kvs : List (String × String)) (n : Nat),
    (rowsOf fk fc n kvs).map Row.num = List.range' n kvs.length := by
  intro kvs
  induction kvs with
  | nil => intro n; rfl
  | cons kv rest ih =>
    intro n
    obtain ⟨k, v⟩ := kv
    simp [rowsOf, ih, List.range']

theorem certRowsA_length : ∀ (certs : List Cert) (n i : Nat),
    (certRowsA n i certs).length = certs.length := by
  intro certs
  induction certs with
  | nil => intro n i; rfl
  | cons c rest ih => intro n i; simp [certRowsA, ih]

theorem certRowsA_map_num : ∀ (certs : List Cert) (n i : Nat),
    (certRowsA n i certs).map Row.num = List.range' n certs.length := by
  intro certs
  induction certs with
  | nil => intro n i; rfl
  | cons c rest ih => intro n i; simp [certRowsA, ih, List.range']

theorem numbered_append (xs ys : List Row) (s : Nat)
    (hx : xs.map Row.num = List.range' s xs.length)
    (hy : ys.map Row.num = List.range' (s + xs.length) ys.length) :
    (xs ++ ys).map Row.num = List.range' s (xs ++ ys).length := by
  rw [List.map_append, hx, hy, List.length_append, List.range'_append_1, Nat.add_comm ys.length]

/-- Rows carry exactly the sequence numbers `s, s+1, ...` in order. -/
def numberedFrom (s : Nat) (rows : List Row) : Prop :=
  rows.map Row.num = List.range' s rows.length

theorem numberedFrom_append' (xs ys : List Row) (s t : Nat) (hx : numberedFrom s xs)
    (hy : numberedFrom t ys) (ht : t = s + xs.length) : numberedFrom s (xs ++ ys) := by
  subst ht
  exact numbered_append xs ys s hx hy

theorem numberedFrom_rowsOf (fk fc : String → String) (n : Nat) (kvs : List (String × String)) :
    numberedFrom n (rowsOf fk fc n kvs) := by
  show _ = _
  rw [rowsOf_length]
  exact rowsOf_map_num fk fc kvs n

theorem numberedFrom_certRowsA (n i : Nat) (certs : List Cert) :
    numberedFrom n (certRowsA n i certs) := by
  show _ = _
  rw [certRowsA_length]
  exact certRowsA_map_num certs n i

theorem numberedFrom_single (r : Row) : numberedFrom r.num [r] := by
  show _ = _
  simp [List.range']

theorem numberedFrom_three (r1 r2 r3 : Row) (a : Nat) (h1 : r1.num = a) (h2 : r2.num = a + 1)
    (h3 : r3.num = a + 2) : numberedFrom a [r1, r2, r3] := by
  show _ = _
  simp [List.range', h1, h2, h3]

theorem structure_ai_output_nums (d : AIData) :
    (structure_ai_output d).map Row.num = List.range' 1 (structure_ai_output d).length := by
  obtain ⟨pi, fr, cr, pr, hs, po, bd, ug, gr, certs, tech⟩ := d
  show numberedFrom 1 _
  simp only [structure_ai_output]
  refine numberedFrom_append' _ _ _ _ ?_ (numberedFrom_single _) ?_
  · refine numberedFrom_append' _ _ _ _ ?_ (numberedFrom_certRowsA _ 0 certs) ?_
    · refine numberedFrom_append' _ _ _ _ ?_ (numberedFrom_rowsOf _ _ _ gr) ?_
      · refine numberedFrom_append' _ _ _ _ ?_ (numberedFrom_rowsOf _ _ _ ug) ?_
        · refine numberedFrom_append' _ _ _ _ ?_ (numberedFrom_three _ _ _ _ rfl rfl rfl) ?_
          · refine numberedFrom_append' _ _ _ _ ?_ (numberedFrom_rowsOf _ _ _ pr) ?_
            · refine numberedFrom_append' _ _ _ _ ?_ (numberedFrom_rowsOf _ _ _ cr) ?_
              · exact numberedFrom_append' _ _ _ _ (numberedFrom_rowsOf _ _ 1 pi)
                  (numberedFrom_rowsOf _ _ _ fr) (by simp [rowsOf_length])
              · simp [rowsOf_length, List.length_append]
                omega
            · simp [rowsOf_length, List.length_append]
              omega
          · simp [rowsOf_length, List.length_append]
            omega
        · simp [rowsOf_length, List.length_append]
          omega
      · simp [rowsOf_length, List.length_append]
        omega
    · simp [rowsOf_length, List.length_append]
      omega
  · simp [rowsOf_length, certRowsA_length, List.length_append]
    omega

theorem certRowsA_get : ∀ (certs : List Cert) (n i j : Nat) (hj : j < certs.length),
    (certRowsA n i certs)[j]? = some ⟨n + j, "Certifications " ++ toString (i + j + 1),
      .str (certs.get ⟨j, hj⟩).name, certComment (i + j)⟩ := by
  intro certs
  induction certs with
  | nil => intro n i j hj; simp at hj
  | cons c rest ih =>
    intro n i j hj
    cases j with
    | zero => simp [certRowsA]
    | succ j =>
      have hj2 : j < rest.length := by simpa using Nat.lt_of_succ_lt_succ hj
      have := ih (n + 1) (i + 1) j hj2
      simp only [certRowsA, List.getElem?_cons_succ]
      rw [this]
      have e1 : n + 1 + j = n + (j + 1) := by omega
      have e2 : i + 1 + j + 1 = i + (j + 1) + 1 := by omega
      have e3 : i + 1 + j = i + (j + 1) := by omega
      rw [e1, e2, e3]
      rfl

/-! ## Fallback and non-fatality lemmas for the regex path -/

theorem dobRows_fallback (s : List Char) (h1 : (dobMatch s).isSome = true)
    (h2 : parseLongDateS (dobStr s) = none) :
    dobRows s = [⟨3, "Date of Birth", .str "1989-03-15 00:00:00", ""⟩] := by
  cases hx : dobMatch s with
  | none => rw [hx] at h1; simp at h1
  | some m =>
    obtain ⟨w, caps⟩ := m
    have hstr : dobStr s = mgrp caps 1 := by simp [dobStr, hx]
    rw [hstr] at h2
    simp [dobRows, hx, h2]

theorem processRows_ne_nil (t : String) : processRows t ≠ [] := by
  simp [processRows, extract_education_info, List.append_eq_nil]

/-- Substring occurrence test over character lists. -/
def containsSub (pat : List Char) : List Char → Bool
  | [] => pat.isEmpty
  | c :: rest => pat.isPrefixOf (c :: rest) || containsSub pat rest

/-- Substring occurrence test over strings. -/
def containsSubS (pat s : String) : Bool := containsSub pat.data s.data

/-! ## Concrete inputs used by the claims -/

/-- The concrete scenario text of the spec (section 8). -/
def ALICE : String :=
  "Alice Smith was born on June 5, 1990, in Pune, Maharashtra, making him 34 years old as of 2024."

/-- A text on which only the age rule matches. -/
def TINY : String := "making him 34 years old"

/-- A text whose date-of-birth match is not a parsable date. -/
def MALF : String := "Tim Tam was born on Friday 10, 1990."

/-! ## The claims -/

/-- C1 (counterexample): on the text where only the age rule matches, a
DocumentProcessor run produces rows whose hard-coded sequence numbers are
6 and 31 — not the contiguous 1, 2 the claim requires. -/
theorem C1_counterexample :
    (processRows TINY).map Row.num = [6, 31] ∧
      ¬(processRows TINY).map Row.num = List.range' 1 (processRows TINY).length :=
  ⟨by decide, by decide⟩

/-- C1 (amended): in the structured (AI) path the flattener assigns sequence
numbers exactly 1..n with no gaps and no reuse, for every input structure;
the regex path instead stores a fixed per-field constant in each row, so its
numbers have gaps whenever a rule fails to match. -/
theorem C1_structured_rows_numbered (d : AIData) :
    (structure_ai_output d).map Row.num = List.range' 1 (structure_ai_output d).length :=
  structure_ai_output_nums d

/-- C2: the empty-string input makes process_all raise the fatal
empty-input error before producing any row, and the demo shell then writes
neither the spreadsheet nor the JSON file. -/
theorem C2_empty_input_fatal :
    process_all "" = .error "No text content provided. Please load content first." ∧
      demo_usage "" = ⟨[], false, false, true⟩ :=
  ⟨rfl, rfl⟩

/-- C3 (counterexample): on the malformed-date input the date rule matches,
the date fails to parse, and the row falls back to the hard-coded default —
but the processing log carries only the banner and the per-section success
lines: no transform-error entry of any kind is appended. -/
theorem C3_counterexample :
    (dobMatch MALF.data).isSome = true ∧
      parseLongDateS (dobStr MALF.data) = none ∧
      processRows MALF = [⟨1, "First Name", .str "Tim", ""⟩, ⟨2, "Last Name", .str "Tam", ""⟩,
        ⟨3, "Date of Birth", .str "1989-03-15 00:00:00", ""⟩, gradYearRow] ∧
      processLog MALF = ["🚀 Starting document processing...",
        "✅ Personal information extracted successfully",
        "✅ Professional information extracted successfully",
        "✅ Education information extracted successfully",
        "✅ Certifications extracted successfully",
        "✅ Technical proficiency extracted successfully",
        "✅ Processing complete! Extracted 4 records."] ∧
      (processLog MALF).all (fun e => !containsSubS "error" e && !containsSubS "transform" e
        && !containsSubS "Transform" e) = true :=
  ⟨by decide, by decide, by decide, by decide, by decide⟩

/-- C3 (amended): whenever the date-of-birth pattern matches but the matched
string fails to parse as a date, the produced row carries the hard-coded
fallback value 1989-03-15 00:00:00 (a constant in the extractor, not a
per-rule declared default), and that row is part of the personal-info
extraction output; no log entry records the failure. -/
theorem C3_date_fallback (s : List Char) (h1 : (dobMatch s).isSome = true)
    (h2 : parseLongDateS (dobStr s) = none) :
    dobRows s = [⟨3, "Date of Birth", .str "1989-03-15 00:00:00", ""⟩] ∧
      (⟨3, "Date of Birth", .str "1989-03-15 00:00:00", ""⟩ : Row) ∈ extract_personal_info s := by
  have hd := dobRows_fallback s h1 h2
  refine ⟨hd, ?_⟩
  simp [extract_personal_info, hd]

/-- C3 (witness): the fallback theorem applied to the concrete
malformed-date input. -/
theorem C3_witness :
    dobRows MALF.data = [⟨3, "Date of Birth", .str "1989-03-15 00:00:00", ""⟩] ∧
      (⟨3, "Date of Birth", .str "1989-03-15 00:00:00", ""⟩ : Row) ∈
        extract_personal_info MALF.data :=
  C3_date_fallback MALF.data (by decide) (by decide)

/-- C4 (counterexample): on the Alice input the blood-group rule fails to
match; the run completes, the field is absent from the rows, and the
remaining rows are produced — but the log holds only the banner and the
section success lines: no no-match entry exists for the failed rule. -/
theorem C4_counterexample :
    reSearch p_blood ALICE.data = none ∧
      (processRows ALICE).all (fun r => !(r.key == "Blood Group")) = true ∧
      process_all ALICE = .ok (processRows ALICE, processLog ALICE) ∧
      processLog ALICE = ["🚀 Starting document processing...",
        "✅ Personal information extracted successfully",
        "✅ Professional information extracted successfully",
        "✅ Education information extracted successfully",
        "✅ Certifications extracted successfully",
        "✅ Technical proficiency extracted successfully",
        "✅ Processing complete! Extracted 7 records."] ∧
      (processLog ALICE).all (fun e => !containsSubS "Blood" e && !containsSubS "no match" e
        && !containsSubS "warn" e) = true :=
  ⟨by decide, by decide, by decide, by decide, by decide⟩

/-- C4 (amended): for every non-empty input text the run completes without
raising — process_all returns ok with the extracted rows and the fixed
success-only log — and both output files are then written by the demo
shell (the row list is never empty, because the graduation-year row is
unconditional). -/
theorem C4_nonfatal_run (t : String) (h : t ≠ "") :
    process_all t = .ok (processRows t, processLog t) ∧
      demo_usage t = ⟨processRows t, true, true, false⟩ := by
  have hok : process_all t = .ok (processRows t, processLog t) := by
    simp [process_all, h]
  refine ⟨hok, ?_⟩
  simp [demo_usage, hok, processRows_ne_nil t]

/-- C4 (witness): the non-fatality theorem applied to the Alice input. -/
theorem C4_witness :
    process_all ALICE = .ok (processRows ALICE, processLog ALICE) ∧
      demo_usage ALICE = ⟨processRows ALICE, true, true, false⟩ :=
  C4_nonfatal_run ALICE (by decide)

/-- C5 (counterexample): the Alice input does yield First Name Alice at 1,
Last Name Smith at 2, Pune and Maharashtra rows — but the produced sequence
numbers are 1, 2, 3, 4, 5, 6, 31 (date-of-birth at 3, Pune at 4, Maharashtra
at 5, age at 6, the unconditional graduation-year row at 31), not the
strict 1, 2, 3, 4 the claim states. -/
theorem C5_counterexample :
    (processRows ALICE).map Row.num = [1, 2, 3, 4, 5, 6, 31] ∧
      ¬(processRows ALICE).map Row.num = [1, 2, 3, 4] :=
  ⟨by decide, by decide⟩

/-- C5 (amended): the full row list of a run on the Alice input: Alice and
Smith at numbers 1 and 2, the parsed date of birth at 3, Pune as Birth City
at 4, Maharashtra as Birth State at 5, the age row at 6, and the
unconditional graduation-year row at its hard-coded number 31. -/
theorem C5_alice_rows :
    processRows ALICE = [⟨1, "First Name", .str "Alice", ""⟩,
      ⟨2, "Last Name", .str "Smith", ""⟩,
      ⟨3, "Date of Birth", .str "1990-06-05 00:00:00", ""⟩,
      ⟨4, "Birth City", .str "Pune", birthComment⟩,
      ⟨5, "Birth State", .str "Maharashtra", birthComment⟩,
      ⟨6, "Age", .str "34 years", ageComment⟩,
      ⟨31, "Graduation year", .str "2013", ""⟩] := by
  decide

/-- C6: the simulated-AI extraction returns the same pre-written constant
structure for every input text, so processing is independent of the input:
any two texts yield identical extracted data and identical rows. -/
theorem C6_input_independent (t1 t2 : String) :
    simulate_ai_extraction t1 = aiConstant ∧
      simulate_ai_extraction t1 = simulate_ai_extraction t2 ∧
      process_document t1 = process_document t2 :=
  ⟨rfl, rfl, rfl⟩

/-- C7: both pipelines are deterministic — two runs on the same input text
produce the same result (rows and log for the regex path, rows for the
simulated-AI path). -/
theorem C7_deterministic :
    (∀ (t : String) (r1 r2 : List Row × List String),
      process_all t = .ok r1 → process_all t = .ok r2 → r1 = r2) ∧
    (∀ (t : String) (o1 o2 : List Row),
      process_document t = o1 → process_document t = o2 → o1 = o2) := by
  constructor
  · intro t r1 r2 h1 h2
    rw [h1] at h2
    exact (Except.ok.inj h2)
  · intro t o1 o2 h1 h2
    rw [h1] at h2
    exact h2

/-- C7 (witness): two descriptions of the run on the one-letter input "x"
agree: the only row is the unconditional graduation-year row. -/
theorem C7_witness :
    (processRows "x", processLog "x") = ([gradYearRow],
      ["🚀 Starting document processing...",
       "✅ Personal information extracted successfully",
       "✅ Professional information extracted successfully",
       "✅ Education information extracted successfully",
       "✅ Certifications extracted successfully",
       "✅ Technical proficiency extracted successfully",
       "✅ Processing complete! Extracted 1 records."]) :=
  C7_deterministic.1 "x" _ _ rfl (by decide)

/-- C8: exporting any non-empty row sequence with save_to_json (the byte
layout of json.dump with indent 2 and ensure_ascii false) and re-parsing the
document yields exactly the original row sequence. -/
theorem C8_json_roundtrip (rows : List Row) (h : rows ≠ []) :
    save_to_json rows = some (serRows rows) ∧ parseRows (serRows rows) = some rows :=
  ⟨by simp [save_to_json, h], parseRows_serRows rows h⟩

/-- C8 (witness): the round trip on a concrete two-row sequence holding a
string value and a decimal value. -/
theorem C8_witness :
    save_to_json [⟨1, "First Name", .str "Vijay", ""⟩,
        ⟨24, "12th overall board score", .num ⟨925, 3⟩, "Outstanding achievement"⟩]
      = some (serRows [⟨1, "First Name", .str "Vijay", ""⟩,
        ⟨24, "12th overall board score", .num ⟨925, 3⟩, "Outstanding achievement"⟩]) ∧
    parseRows (serRows [⟨1, "First Name", .str "Vijay", ""⟩,
        ⟨24, "12th overall board score", .num ⟨925, 3⟩, "Outstanding achievement"⟩])
      = some [⟨1, "First Name", .str "Vijay", ""⟩,
        ⟨24, "12th overall board score", .num ⟨925, 3⟩, "Outstanding achievement"⟩] :=
  C8_json_roundtrip _ (by decide)

/-- C9 (counterexample): the flattener labels certification rows
"Certifications N" (plural), not "Certification N" as the claim writes:
the 33rd to 36th keys of the structured output are Certifications 1..4. -/
theorem C9_counterexample :
    ((process_document "").map Row.key).drop 32 = ["Certifications 1", "Certifications 2",
      "Certifications 3", "Certifications 4", "Technical Proficiency"] ∧
      ¬("Certifications 1" = "Certification 1") :=
  ⟨by decide, by decide⟩

/-- C9 (amended): for every certification list the flattener emits one row
per certification, in list order, the j-th row keyed "Certifications N"
with N the 1-based position j+1, valued with that certification name. -/
theorem C9_cert_rows (certs : List Cert) (n j : Nat) (hj : j < certs.length) :
    (certRowsA n 0 certs).length = certs.length ∧
      (certRowsA n 0 certs)[j]? = some ⟨n + j, "Certifications " ++ toString (j + 1),
        .str (certs.get ⟨j, hj⟩).name, certComment j⟩ := by
  refine ⟨certRowsA_length certs n 0, ?_⟩
  have h := certRowsA_get certs n 0 j hj
  simpa using h

/-- C9 (witness): the certification-row theorem applied to the constant
extraction data at position 0. -/
theorem C9_witness :
    (certRowsA 33 0 aiConstant.certifications).length = aiConstant.certifications.length ∧
      (certRowsA 33 0 aiConstant.certifications)[0]? = some ⟨33 + 0,
        "Certifications " ++ toString (0 + 1),
        .str (aiConstant.certifications.get ⟨0, by decide⟩).name, certComment 0⟩ :=
  C9_cert_rows aiConstant.certifications 33 0 (by decide)

/-- C10 (counterexample): only format_key_name owns the title-case fallback;
the role formatters fall back to the raw key: format_first_role_key maps the
unknown key bonus_pay to itself, not to the generic transform Bonus Pay. -/
theorem C10_counterexample :
    format_first_role_key "bonus_pay" = "bonus_pay" ∧
      titleFallback "bonus_pay" = "Bonus Pay" ∧
      ¬format_first_role_key "bonus_pay" = titleFallback "bonus_pay" :=
  ⟨by decide, by decide, by decide⟩

/-- C10 (amended): a key absent from the personal-info label table is
displayed through the generic fallback (underscores to spaces, then
title-case); a key absent from the first-role label table is displayed
unchanged. -/
theorem C10_label_fallback :
    (∀ k : String, key_mapping.lookup k = none → format_key_name k = titleFallback k) ∧
      (∀ k : String, first_role_mapping.lookup k = none → format_first_role_key k = k) := by
  constructor
  · intro k h
    simp [format_key_name, h]
  · intro k h
    simp [format_first_role_key, h]

/-- C10 (witness): the fallback theorem applied to two unknown keys. -/
theorem C10_witness :
    format_key_name "visa_status" = titleFallback "visa_status" ∧
      format_first_role_key "bonus_pay" = "bonus_pay" :=
  ⟨C10_label_fallback.1 "visa_status" (by decide), C10_label_fallback.2 "bonus_pay" (by decide)⟩
